import Mathlib

/-!
Verification development for the `nrf-jlink-js` repository.

The file embeds `src/src/jlink.ts` — the `Jlink` facade class — as Lean
definitions.  The backend strategy classes (`jlinkAbstract.ts`,
`jlinkInstaller.ts`, `jlinkBundle.ts`) are imported by the facade but are not
part of the available sources; their behaviour is modelled from the
specification where a claim needs it (deterministic recorded state for the
path/version/license setters, an abstract behaviour oracle for the
I/O-performing operations).  The facade's own code — construction, argument
defaulting, the environment-variable side effect, and the delegation of every
operation — is translated directly from `jlink.ts`.
-/

/-- JavaScript `x || d` defaulting as used in the `Jlink` constructor
(`installType || "installer"`, `os || process.platform`,
`arch || process.arch`): an absent argument (`undefined`) and the empty
string are both falsy, so both select the default. -/
def jsOrDefault (x : Option String) (d : String) : String :=
  match x with
  | none => d
  | some s => if s = "" then d else s

/-- Modelled from the spec: the two backend strategy classes
(`JlinkInstaller`, `JlinkBundle`) missing from the sources, distinguished by
which strategy a backend object is. -/
inductive BackendKind where
  | installer
  | bundle
  deriving DecidableEq, Repr

/-- One delegated call received by a backend object, with the exact arguments
the facade passed.  `P` is the (opaque) type of progress-callback references;
the facade only forwards such references, never invokes or inspects them. -/
inductive BackendCall (P : Type) where
  | listLocalInstalled
  | listRemote
  | download (version : String) (progressUpdate : Option P)
  | downloadFromSegger (version : String) (progressUpdate : Option P)
  | install (installPath : Option String)
  | downloadAndInstall (version : String) (progressUpdate : P)
  | getVersion
  | upload (filePath : String) (version : String) (progressUpdate : Option P)
  | setJlinkPath (path : String)
  | getJlinkPath
  | setJlinkVersion (version : String)
  | getJlinkVersion
  | acceptLicense
  | declineLicense
  | showLicense
  deriving DecidableEq, Repr

/-- Modelled from the spec: the state of a backend strategy object
(`jlinkAbstract.ts` and its two subclasses are not in the sources).  A backend
is created with an OS and architecture, records the library path set by
`setJlinkPath` and the version set by `setJlinkVersion`, holds
license-acceptance state, and keeps the trace of delegated calls it has
received (most recent last), which lets the development state that the facade
makes exactly one delegated call per operation. -/
structure BackendState (P : Type) where
  kind : BackendKind
  os : String
  arch : String
  jlinkPath : String
  jlinkVersion : String
  licenseAccepted : Option Bool
  calls : List (BackendCall P)
  deriving DecidableEq, Repr

/-- Modelled from the spec: backend construction (`new JlinkInstaller(os, arch)`
/ `new JlinkBundle(os, arch)`), receiving the OS and architecture resolved by
the facade, with empty recorded path/version, undecided license state and an
empty call trace. -/
def mkBackend (P : Type) (kind : BackendKind) (os arch : String) :
    BackendState P :=
  { kind := kind
    os := os
    arch := arch
    jlinkPath := ""
    jlinkVersion := ""
    licenseAccepted := none
    calls := [] }

/-- Modelled from the spec: the externally-determined outcomes of the backend
operations that perform I/O (filesystem scan, network download, OS install,
upload, license text).  `E` is the type of error values a backend operation
can reject or throw with; `D` is the opaque `JlinkDownload` record shape.
Each outcome may depend on the backend's current state. -/
structure Behavior (E D P : Type) where
  listLocalInstalled : BackendState P → Except E (List String)
  listRemote : BackendState P → Except E (List D)
  download : BackendState P → String → Option P → Except E String
  downloadFromSegger : BackendState P → String → Option P → Except E String
  install : BackendState P → Option String → Except E Unit
  downloadAndInstall : BackendState P → String → P → Except E Unit
  getVersion : BackendState P → Except E String
  upload : BackendState P → String → String → Option P → Except E String
  showLicense : BackendState P → Except E String

namespace BackendState

variable {E D P : Type}

/-- Modelled from the spec: backend `listLocalInstalled` — outcome from the
oracle, the call recorded in the trace. -/
def opListLocalInstalled (beh : Behavior E D P) (b : BackendState P) :
    Except E (List String) × BackendState P :=
  (beh.listLocalInstalled b, { b with calls := b.calls ++ [.listLocalInstalled] })

/-- Modelled from the spec: backend `listRemote`. -/
def opListRemote (beh : Behavior E D P) (b : BackendState P) :
    Except E (List D) × BackendState P :=
  (beh.listRemote b, { b with calls := b.calls ++ [.listRemote] })

/-- Modelled from the spec: backend `download`. -/
def opDownload (beh : Behavior E D P) (b : BackendState P) (version : String)
    (progressUpdate : Option P) : Except E String × BackendState P :=
  (beh.download b version progressUpdate,
    { b with calls := b.calls ++ [.download version progressUpdate] })

/-- Modelled from the spec: backend `downloadFromSegger`. -/
def opDownloadFromSegger (beh : Behavior E D P) (b : BackendState P)
    (version : String) (progressUpdate : Option P) :
    Except E String × BackendState P :=
  (beh.downloadFromSegger b version progressUpdate,
    { b with calls := b.calls ++ [.downloadFromSegger version progressUpdate] })

/-- Modelled from the spec: backend `install`. -/
def opInstall (beh : Behavior E D P) (b : BackendState P)
    (installPath : Option String) : Except E Unit × BackendState P :=
  (beh.install b installPath,
    { b with calls := b.calls ++ [.install installPath] })

/-- Modelled from the spec: backend `downloadAndInstall`. -/
def opDownloadAndInstall (beh : Behavior E D P) (b : BackendState P)
    (version : String) (progressUpdate : P) :
    Except E Unit × BackendState P :=
  (beh.downloadAndInstall b version progressUpdate,
    { b with calls := b.calls ++ [.downloadAndInstall version progressUpdate] })

/-- Modelled from the spec: backend `getVersion` (queries the installed
binary, hence oracle-determined). -/
def opGetVersion (beh : Behavior E D P) (b : BackendState P) :
    Except E String × BackendState P :=
  (beh.getVersion b, { b with calls := b.calls ++ [.getVersion] })

/-- Modelled from the spec: backend `upload`. -/
def opUpload (beh : Behavior E D P) (b : BackendState P) (filePath : String)
    (version : String) (progressUpdate : Option P) :
    Except E String × BackendState P :=
  (beh.upload b filePath version progressUpdate,
    { b with calls := b.calls ++ [.upload filePath version progressUpdate] })

/-- Modelled from the spec: backend `setJlinkPath` records the library path. -/
def opSetJlinkPath (b : BackendState P) (path : String) : BackendState P :=
  { b with
    jlinkPath := path
    calls := b.calls ++ [.setJlinkPath path] }

/-- Modelled from the spec: backend `getJlinkPath` returns the recorded
library path. -/
def opGetJlinkPath (b : BackendState P) : String × BackendState P :=
  (b.jlinkPath, { b with calls := b.calls ++ [.getJlinkPath] })

/-- Modelled from the spec: backend `setJlinkVersion` records the version the
backend should target. -/
def opSetJlinkVersion (b : BackendState P) (version : String) : BackendState P :=
  { b with
    jlinkVersion := version
    calls := b.calls ++ [.setJlinkVersion version] }

/-- Modelled from the spec: backend `getJlinkVersion` returns the recorded
version. -/
def opGetJlinkVersion (b : BackendState P) : String × BackendState P :=
  (b.jlinkVersion, { b with calls := b.calls ++ [.getJlinkVersion] })

/-- Modelled from the spec: backend `acceptLicense` records acceptance. -/
def opAcceptLicense (b : BackendState P) : BackendState P :=
  { b with
    licenseAccepted := some true
    calls := b.calls ++ [.acceptLicense] }

/-- Modelled from the spec: backend `declineLicense` records refusal. -/
def opDeclineLicense (b : BackendState P) : BackendState P :=
  { b with
    licenseAccepted := some false
    calls := b.calls ++ [.declineLicense] }

/-- Modelled from the spec: backend `showLicense` returns the license text
(held by the backend, hence oracle-determined). -/
def opShowLicense (beh : Behavior E D P) (b : BackendState P) :
    Except E String × BackendState P :=
  (beh.showLicense b, { b with calls := b.calls ++ [.showLicense] })

end BackendState

/-- The process environment, as far as the facade touches it: a partial map
from variable names to values. -/
def Env : Type := String → Option String

/-- Setting one environment variable (`process.env["NRF_JLINK_PATH"] = path`). -/
def Env.setVar (e : Env) (k v : String) : Env :=
  fun k2 => if k2 = k then some v else e k2

/-- The `Jlink` facade object of `src/src/jlink.ts`: fields `installType`,
`os`, `arch` and the backend strategy object `jlink`. -/
structure Jlink (P : Type) where
  installType : String
  os : String
  arch : String
  jlink : BackendState P
  deriving DecidableEq, Repr

namespace Jlink

variable {E D P : Type}

/-- The `Jlink` constructor of `src/src/jlink.ts` (lines 16–35):

```
this.installType = installType || "installer";
this.os = os || process.platform;
this.arch = arch || process.arch;
switch (this.installType) {
  case "installer": this.jlink = new JlinkInstaller(this.os, this.arch); return;
  case "bundle":    this.jlink = new JlinkBundle(this.os, this.arch); return;
  default:          throw new Error("Invalid install type");
}
```

`processPlatform`/`processArch` stand for the ambient `process.platform` and
`process.arch` at construction time.  On the `default` branch the constructor
throws before any backend object is created, embedded as `Except.error`. -/
def construct (P : Type) (installType os arch : Option String)
    (processPlatform processArch : String) : Except String (Jlink P) :=
  let it := jsOrDefault installType "installer"
  let o := jsOrDefault os processPlatform
  let a := jsOrDefault arch processArch
  if it = "installer" then
    .ok { installType := it
          os := o
          arch := a
          jlink := mkBackend P .installer o a }
  else if it = "bundle" then
    .ok { installType := it
          os := o
          arch := a
          jlink := mkBackend P .bundle o a }
  else
    .error "Invalid install type"

/-- `listLocalInstalled(): string[] { return this.jlink.listLocalInstalled(); }` -/
def listLocalInstalled (beh : Behavior E D P) (j : Jlink P) :
    Except E (List String) × Jlink P :=
  let (r, b) := BackendState.opListLocalInstalled beh j.jlink
  (r, { j with jlink := b })

/-- `async listRemote() { return await this.jlink.listRemote(); }` -/
def listRemote (beh : Behavior E D P) (j : Jlink P) :
    Except E (List D) × Jlink P :=
  let (r, b) := BackendState.opListRemote beh j.jlink
  (r, { j with jlink := b })

/-- `async download(version, progressUpdate?) { return await this.jlink.download(version, progressUpdate); }` -/
def download (beh : Behavior E D P) (j : Jlink P) (version : String)
    (progressUpdate : Option P) : Except E String × Jlink P :=
  let (r, b) := BackendState.opDownload beh j.jlink version progressUpdate
  (r, { j with jlink := b })

/-- `async downloadFromSegger(version, progressUpdate?) { return await this.jlink.downloadFromSegger(version, progressUpdate); }` -/
def downloadFromSegger (beh : Behavior E D P) (j : Jlink P) (version : String)
    (progressUpdate : Option P) : Except E String × Jlink P :=
  let (r, b) :=
    BackendState.opDownloadFromSegger beh j.jlink version progressUpdate
  (r, { j with jlink := b })

/-- `async install(installPath?) { await this.jlink.install(installPath); }` -/
def install (beh : Behavior E D P) (j : Jlink P)
    (installPath : Option String) : Except E Unit × Jlink P :=
  let (r, b) := BackendState.opInstall beh j.jlink installPath
  (r, { j with jlink := b })

/-- `async downloadAndInstall(version, progressUpdate) { await this.jlink.downloadAndInstall(version, progressUpdate); }` -/
def downloadAndInstall (beh : Behavior E D P) (j : Jlink P)
    (version : String) (progressUpdate : P) : Except E Unit × Jlink P :=
  let (r, b) :=
    BackendState.opDownloadAndInstall beh j.jlink version progressUpdate
  (r, { j with jlink := b })

/-- `async getVersion() { return await this.jlink.getVersion(); }` -/
def getVersion (beh : Behavior E D P) (j : Jlink P) :
    Except E String × Jlink P :=
  let (r, b) := BackendState.opGetVersion beh j.jlink
  (r, { j with jlink := b })

/-- `async upload(filePath, version, progressUpdate?) { return await this.jlink.upload(filePath, version, progressUpdate); }` -/
def upload (beh : Behavior E D P) (j : Jlink P) (filePath : String)
    (version : String) (progressUpdate : Option P) :
    Except E String × Jlink P :=
  let (r, b) :=
    BackendState.opUpload beh j.jlink filePath version progressUpdate
  (r, { j with jlink := b })

/-- `setJlinkPath(path) { process.env["NRF_JLINK_PATH"] = path; this.jlink.setJlinkPath(path); }`
— mutates the process environment, then informs the backend. -/
def setJlinkPath (j : Jlink P) (env : Env) (path : String) : Env × Jlink P :=
  let env2 := Env.setVar env "NRF_JLINK_PATH" path
  let b := BackendState.opSetJlinkPath j.jlink path
  (env2, { j with jlink := b })

/-- `getJlinkPath() { return this.jlink.getJlinkPath(); }` -/
def getJlinkPath (j : Jlink P) : String × Jlink P :=
  let (r, b) := BackendState.opGetJlinkPath j.jlink
  (r, { j with jlink := b })

/-- `setJlinkVersion(version) { this.jlink.setJlinkVersion(version); }` -/
def setJlinkVersion (j : Jlink P) (version : String) : Jlink P :=
  { j with jlink := BackendState.opSetJlinkVersion j.jlink version }

/-- `getJlinkVersion() { return this.jlink.getJlinkVersion(); }` -/
def getJlinkVersion (j : Jlink P) : String × Jlink P :=
  let (r, b) := BackendState.opGetJlinkVersion j.jlink
  (r, { j with jlink := b })

/-- `acceptLicense() { this.jlink.acceptLicense(); }` -/
def acceptLicense (j : Jlink P) : Jlink P :=
  { j with jlink := BackendState.opAcceptLicense j.jlink }

/-- `declineLicense() { this.jlink.declineLicense(); }` -/
def declineLicense (j : Jlink P) : Jlink P :=
  { j with jlink := BackendState.opDeclineLicense j.jlink }

/-- `showLicense(): String { return this.jlink.showLicense(); }` -/
def showLicense (beh : Behavior E D P) (j : Jlink P) :
    Except E String × Jlink P :=
  let (r, b) := BackendState.opShowLicense beh j.jlink
  (r, { j with jlink := b })

end Jlink

/-! ## Sample values used by witnesses and counterexamples -/

/-- A concrete behaviour oracle in which every I/O-performing backend
operation rejects with the error string "boom". -/
def behBoom : Behavior String String Nat where
  listLocalInstalled := fun _ => .error "boom"
  listRemote := fun _ => .error "boom"
  download := fun _ _ _ => .error "boom"
  downloadFromSegger := fun _ _ _ => .error "boom"
  install := fun _ _ => .error "boom"
  downloadAndInstall := fun _ _ _ => .error "boom"
  getVersion := fun _ => .error "boom"
  upload := fun _ _ _ _ => .error "boom"
  showLicense := fun _ => .error "boom"

/-- A concrete freshly-constructed facade (installer strategy on linux/x64). -/
def jlinkSample : Jlink Nat :=
  ⟨"installer", "linux", "x64", mkBackend Nat .installer "linux" "x64"⟩

/-! ## Claims -/

/-- C1, counterexample: the empty string is an install type string other than
"installer" and "bundle", yet construction does not fail with the
invalid-argument error — JavaScript `||` treats the empty string as falsy, so
it selects the default "installer" and an installer backend is created. -/
theorem construct_empty_string_not_rejected :
    "" ≠ "installer" ∧ "" ≠ "bundle" ∧
    Jlink.construct Nat (some "") (some "linux") (some "x64") "linux" "x64"
      = Except.ok ⟨"installer", "linux", "x64",
          mkBackend Nat .installer "linux" "x64"⟩ := by
  refine ⟨by decide, by decide, rfl⟩

/-- C1, amended: for every nonempty install type string other than
"installer" and "bundle", construction fails with the invalid-argument error
"Invalid install type" and no backend is instantiated (no facade value, hence
no backend object, is produced). -/
theorem construct_invalid_type_fails (P : Type) (s : String)
    (hne : s ≠ "") (hi : s ≠ "installer") (hb : s ≠ "bundle")
    (os arch : Option String) (pp pa : String) :
    Jlink.construct P (some s) os arch pp pa
      = Except.error "Invalid install type" := by
  simp [Jlink.construct, jsOrDefault, hne, hi, hb]

/-- C1, witness for the amended statement at the concrete install type "zip". -/
theorem construct_invalid_type_fails_witness :
    Jlink.construct Nat (some "zip") none none "linux" "x64"
      = Except.error "Invalid install type" :=
  construct_invalid_type_fails Nat "zip" (by decide) (by decide) (by decide)
    none none "linux" "x64"

/-- C2: every exposed facade operation performs exactly one delegated call to
the same-named backend operation — the backend's call trace grows by
precisely that one call, carrying the facade's arguments unchanged — and
returns the backend's result unchanged. -/
theorem facade_forwards_each_operation (E D P : Type) (beh : Behavior E D P)
    (j : Jlink P) :
    ((Jlink.listLocalInstalled beh j).1 = beh.listLocalInstalled j.jlink ∧
      (Jlink.listLocalInstalled beh j).2.jlink.calls
        = j.jlink.calls ++ [.listLocalInstalled]) ∧
    ((Jlink.listRemote beh j).1 = beh.listRemote j.jlink ∧
      (Jlink.listRemote beh j).2.jlink.calls
        = j.jlink.calls ++ [.listRemote]) ∧
    (∀ v cb, (Jlink.download beh j v cb).1 = beh.download j.jlink v cb ∧
      (Jlink.download beh j v cb).2.jlink.calls
        = j.jlink.calls ++ [.download v cb]) ∧
    (∀ v cb, (Jlink.downloadFromSegger beh j v cb).1
        = beh.downloadFromSegger j.jlink v cb ∧
      (Jlink.downloadFromSegger beh j v cb).2.jlink.calls
        = j.jlink.calls ++ [.downloadFromSegger v cb]) ∧
    (∀ p, (Jlink.install beh j p).1 = beh.install j.jlink p ∧
      (Jlink.install beh j p).2.jlink.calls
        = j.jlink.calls ++ [.install p]) ∧
    (∀ v cb, (Jlink.downloadAndInstall beh j v cb).1
        = beh.downloadAndInstall j.jlink v cb ∧
      (Jlink.downloadAndInstall beh j v cb).2.jlink.calls
        = j.jlink.calls ++ [.downloadAndInstall v cb]) ∧
    ((Jlink.getVersion beh j).1 = beh.getVersion j.jlink ∧
      (Jlink.getVersion beh j).2.jlink.calls
        = j.jlink.calls ++ [.getVersion]) ∧
    (∀ f v cb, (Jlink.upload beh j f v cb).1 = beh.upload j.jlink f v cb ∧
      (Jlink.upload beh j f v cb).2.jlink.calls
        = j.jlink.calls ++ [.upload f v cb]) ∧
    (∀ env p, (Jlink.setJlinkPath j env p).2.jlink.calls
        = j.jlink.calls ++ [.setJlinkPath p]) ∧
    ((Jlink.getJlinkPath j).1 = j.jlink.jlinkPath ∧
      (Jlink.getJlinkPath j).2.jlink.calls
        = j.jlink.calls ++ [.getJlinkPath]) ∧
    (∀ v, (Jlink.setJlinkVersion j v).jlink.calls
        = j.jlink.calls ++ [.setJlinkVersion v]) ∧
    ((Jlink.getJlinkVersion j).1 = j.jlink.jlinkVersion ∧
      (Jlink.getJlinkVersion j).2.jlink.calls
        = j.jlink.calls ++ [.getJlinkVersion]) ∧
    ((Jlink.acceptLicense j).jlink.calls
        = j.jlink.calls ++ [.acceptLicense]) ∧
    ((Jlink.declineLicense j).jlink.calls
        = j.jlink.calls ++ [.declineLicense]) ∧
    ((Jlink.showLicense beh j).1 = beh.showLicense j.jlink ∧
      (Jlink.showLicense beh j).2.jlink.calls
        = j.jlink.calls ++ [.showLicense]) :=
  ⟨⟨rfl, rfl⟩, ⟨rfl, rfl⟩, fun _ _ => ⟨rfl, rfl⟩, fun _ _ => ⟨rfl, rfl⟩,
   fun _ => ⟨rfl, rfl⟩, fun _ _ => ⟨rfl, rfl⟩, ⟨rfl, rfl⟩,
   fun _ _ _ => ⟨rfl, rfl⟩, fun _ _ => rfl, ⟨rfl, rfl⟩, fun _ => rfl,
   ⟨rfl, rfl⟩, rfl, rfl, ⟨rfl, rfl⟩⟩

/-- C3: backend failures propagate verbatim through the facade: whenever an
I/O-performing backend operation produces the error `e`, the corresponding
facade call produces the same `e` — no retry, no wrapping, no suppression. -/
theorem facade_propagates_errors (E D P : Type) (beh : Behavior E D P)
    (j : Jlink P) (e : E) :
    (beh.listRemote j.jlink = .error e →
      (Jlink.listRemote beh j).1 = .error e) ∧
    (beh.listLocalInstalled j.jlink = .error e →
      (Jlink.listLocalInstalled beh j).1 = .error e) ∧
    (∀ v cb, beh.download j.jlink v cb = .error e →
      (Jlink.download beh j v cb).1 = .error e) ∧
    (∀ v cb, beh.downloadFromSegger j.jlink v cb = .error e →
      (Jlink.downloadFromSegger beh j v cb).1 = .error e) ∧
    (∀ p, beh.install j.jlink p = .error e →
      (Jlink.install beh j p).1 = .error e) ∧
    (∀ v cb, beh.downloadAndInstall j.jlink v cb = .error e →
      (Jlink.downloadAndInstall beh j v cb).1 = .error e) ∧
    (beh.getVersion j.jlink = .error e →
      (Jlink.getVersion beh j).1 = .error e) ∧
    (∀ f v cb, beh.upload j.jlink f v cb = .error e →
      (Jlink.upload beh j f v cb).1 = .error e) ∧
    (beh.showLicense j.jlink = .error e →
      (Jlink.showLicense beh j).1 = .error e) :=
  ⟨fun h => h, fun h => h, fun _ _ h => h, fun _ _ h => h, fun _ h => h,
   fun _ _ h => h, fun h => h, fun _ _ _ h => h, fun h => h⟩

/-- C3, witness: with the always-rejecting behaviour `behBoom`, the facade's
`listRemote` and `download` reject with the backend's own error "boom". -/
theorem facade_propagates_errors_witness :
    (Jlink.listRemote behBoom jlinkSample).1 = Except.error "boom" ∧
    (Jlink.download behBoom jlinkSample "1.2.3" none).1
      = Except.error "boom" :=
  ⟨(facade_propagates_errors String String Nat behBoom jlinkSample "boom").1
      rfl,
   (facade_propagates_errors String String Nat behBoom jlinkSample
      "boom").2.2.1 "1.2.3" none rfl⟩

/-- C4: after `setJlinkPath X`, the backend's recorded library path equals `X`
and the process environment variable NRF_JLINK_PATH equals `X`. -/
theorem setJlinkPath_sets_backend_and_env (P : Type) (j : Jlink P)
    (env : Env) (X : String) :
    (Jlink.setJlinkPath j env X).2.jlink.jlinkPath = X ∧
    (Jlink.setJlinkPath j env X).1 "NRF_JLINK_PATH" = some X :=
  ⟨rfl, by simp [Jlink.setJlinkPath, Env.setVar]⟩

/-- C5: `setJlinkPath X` followed by `getJlinkPath` returns `X` — the set/get
round-trip goes through the backend's recorded path. -/
theorem setJlinkPath_getJlinkPath_roundtrip (P : Type) (j : Jlink P)
    (env : Env) (X : String) :
    (Jlink.getJlinkPath (Jlink.setJlinkPath j env X).2).1 = X := rfl

/-- C6: `setJlinkVersion v` followed by `getJlinkVersion` returns `v`. -/
theorem setJlinkVersion_getJlinkVersion_roundtrip (P : Type) (j : Jlink P)
    (v : String) :
    (Jlink.getJlinkVersion (Jlink.setJlinkVersion j v)).1 = v := rfl

/-- C7: with no install type supplied, construction defaults to "installer"
and creates an installer-strategy backend; with "bundle" it creates a
bundle-strategy backend; in both cases the resolved OS and architecture are
passed through to the backend. -/
theorem construct_default_and_bundle (P : Type) (os arch : Option String)
    (pp pa : String) :
    Jlink.construct P none os arch pp pa
      = Except.ok ⟨"installer", jsOrDefault os pp, jsOrDefault arch pa,
          mkBackend P .installer (jsOrDefault os pp) (jsOrDefault arch pa)⟩ ∧
    Jlink.construct P (some "bundle") os arch pp pa
      = Except.ok ⟨"bundle", jsOrDefault os pp, jsOrDefault arch pa,
          mkBackend P .bundle (jsOrDefault os pp) (jsOrDefault arch pa)⟩ :=
  ⟨rfl, rfl⟩

/-- C8: when no OS or architecture argument is supplied, the constructed
facade's recorded OS and architecture (and those passed to the backend) equal
the ambient process platform and architecture at construction time. -/
theorem construct_defaults_os_arch (P : Type) (it : Option String)
    (pp pa : String) (j : Jlink P)
    (h : Jlink.construct P it none none pp pa = Except.ok j) :
    j.os = pp ∧ j.arch = pa ∧ j.jlink.os = pp ∧ j.jlink.arch = pa := by
  simp only [Jlink.construct, jsOrDefault] at h
  split at h
  · cases h; exact ⟨rfl, rfl, rfl, rfl⟩
  · split at h
    · cases h; exact ⟨rfl, rfl, rfl, rfl⟩
    · cases h

/-- C8, witness: constructing with all arguments absent over the ambient
platform "linux"/"x64" records exactly "linux" and "x64". -/
theorem construct_defaults_os_arch_witness :
    (Jlink.mk "installer" "linux" "x64"
        (mkBackend Nat .installer "linux" "x64")).os = "linux" ∧
    (Jlink.mk "installer" "linux" "x64"
        (mkBackend Nat .installer "linux" "x64")).arch = "x64" ∧
    (Jlink.mk "installer" "linux" "x64"
        (mkBackend Nat .installer "linux" "x64")).jlink.os = "linux" ∧
    (Jlink.mk "installer" "linux" "x64"
        (mkBackend Nat .installer "linux" "x64")).jlink.arch = "x64" :=
  construct_defaults_os_arch Nat none "linux" "x64" _ rfl

/-- The facade's construction-time identity: its own fields `installType`,
`os`, `arch`, and the construction-time identity of the backend object it
holds (strategy kind, OS, architecture — the values fixed when the backend
was created). -/
def Jlink.sameIdentity {P : Type} (j j2 : Jlink P) : Prop :=
  j2.installType = j.installType ∧ j2.os = j.os ∧ j2.arch = j.arch ∧
  j2.jlink.kind = j.jlink.kind ∧ j2.jlink.os = j.jlink.os ∧
  j2.jlink.arch = j.jlink.arch

/-- C9: no exposed operation mutates the facade's own fields: after every
operation, `installType`, `os` and `arch` are unchanged and the `jlink` field
still holds the backend created at construction — its construction-time
identity is preserved, so the backend is never replaced or re-created. -/
theorem facade_fields_never_mutated (E D P : Type) (beh : Behavior E D P)
    (j : Jlink P) :
    Jlink.sameIdentity j (Jlink.listLocalInstalled beh j).2 ∧
    Jlink.sameIdentity j (Jlink.listRemote beh j).2 ∧
    (∀ v cb, Jlink.sameIdentity j (Jlink.download beh j v cb).2) ∧
    (∀ v cb, Jlink.sameIdentity j (Jlink.downloadFromSegger beh j v cb).2) ∧
    (∀ p, Jlink.sameIdentity j (Jlink.install beh j p).2) ∧
    (∀ v cb, Jlink.sameIdentity j (Jlink.downloadAndInstall beh j v cb).2) ∧
    Jlink.sameIdentity j (Jlink.getVersion beh j).2 ∧
    (∀ f v cb, Jlink.sameIdentity j (Jlink.upload beh j f v cb).2) ∧
    (∀ env p, Jlink.sameIdentity j (Jlink.setJlinkPath j env p).2) ∧
    Jlink.sameIdentity j (Jlink.getJlinkPath j).2 ∧
    (∀ v, Jlink.sameIdentity j (Jlink.setJlinkVersion j v)) ∧
    Jlink.sameIdentity j (Jlink.getJlinkVersion j).2 ∧
    Jlink.sameIdentity j (Jlink.acceptLicense j) ∧
    Jlink.sameIdentity j (Jlink.declineLicense j) ∧
    Jlink.sameIdentity j (Jlink.showLicense beh j).2 :=
  ⟨⟨rfl, rfl, rfl, rfl, rfl, rfl⟩, ⟨rfl, rfl, rfl, rfl, rfl, rfl⟩,
   fun _ _ => ⟨rfl, rfl, rfl, rfl, rfl, rfl⟩,
   fun _ _ => ⟨rfl, rfl, rfl, rfl, rfl, rfl⟩,
   fun _ => ⟨rfl, rfl, rfl, rfl, rfl, rfl⟩,
   fun _ _ => ⟨rfl, rfl, rfl, rfl, rfl, rfl⟩,
   ⟨rfl, rfl, rfl, rfl, rfl, rfl⟩,
   fun _ _ _ => ⟨rfl, rfl, rfl, rfl, rfl, rfl⟩,
   fun _ _ => ⟨rfl, rfl, rfl, rfl, rfl, rfl⟩,
   ⟨rfl, rfl, rfl, rfl, rfl, rfl⟩,
   fun _ => ⟨rfl, rfl, rfl, rfl, rfl, rfl⟩,
   ⟨rfl, rfl, rfl, rfl, rfl, rfl⟩, ⟨rfl, rfl, rfl, rfl, rfl, rfl⟩,
   ⟨rfl, rfl, rfl, rfl, rfl, rfl⟩, ⟨rfl, rfl, rfl, rfl, rfl, rfl⟩⟩

/-- C10: the empty install type string is treated exactly like an absent
argument: construction does not raise the invalid-install-type error, the
install type defaults to "installer", and an installer-strategy backend is
created. -/
theorem construct_empty_string_defaults (P : Type) (os arch : Option String)
    (pp pa : String) :
    Jlink.construct P (some "") os arch pp pa
      = Jlink.construct P none os arch pp pa ∧
    Jlink.construct P (some "") os arch pp pa
      = Except.ok ⟨"installer", jsOrDefault os pp, jsOrDefault arch pa,
          mkBackend P .installer (jsOrDefault os pp) (jsOrDefault arch pa)⟩ :=
  ⟨rfl, rfl⟩
